import Mathlib

/-!
# Flappy Baby: simulation, collision and session logic of `src/script.js`

A shallow embedding of the game script.  JavaScript numbers are modelled as exact
rationals (`ℚ`), the module-level variables become the fields of one record `Game`,
and every function of the script that mutates them becomes a function `Game → Game`.
Canvas drawing commands have no effect on the simulation state and are left out; the
mutations performed inside `baby.draw` (sprite box, rotation, scale) are kept.

Inputs that come from the browser are explicit arguments: the window size given to
`resize`, and the value returned by `Math.random()` given to the `Pipe` constructor.
-/

namespace FlappyBaby

/-- An image asset, reduced to the three properties the script reads. -/
structure Img where
  complete : Bool
  naturalWidth : Nat
  naturalHeight : Nat
  deriving DecidableEq

/-- The object literal `baby` (lines 75-83): its data fields. -/
structure Baby where
  x : ℚ
  y : ℚ
  velocity : ℚ
  rotation : ℚ
  w : ℚ
  h : ℚ
  crashed : Bool
  deriving DecidableEq

/-- The fields of a `Pipe` instance (lines 195-206). -/
structure Pipe where
  x : ℚ
  w : ℚ
  topHeight : ℚ
  bottomY : ℚ
  passed : Bool
  deriving DecidableEq

/-- The module-level state of the script.  `scoreText`, `messageText` and `messageShown`
stand for `scoreElement.innerText`, `messageElement.innerText` and
`messageElement.style.display == 'block'`.  `gameOverCalls` is a ghost counter, absent
from the script: it counts the invocations of `gameOver` so that "the call signals a
crash" can be stated for states that are already crashed. -/
structure Game where
  canvasWidth : ℚ
  canvasHeight : ℚ
  GRAVITY : ℚ
  FLAP_STRENGTH : ℚ
  PIPE_SPEED : ℚ
  PIPE_GAP : ℚ
  PIPE_WIDTH : ℚ
  BABY_SCALE : ℚ
  gameRunning : Bool
  frames : Nat
  score : Nat
  pipes : List Pipe
  baby : Baby
  babyUpImg : Img
  babyDownImg : Img
  babyCryImg : Img
  scoreText : Nat
  messageText : String
  messageShown : Bool
  gameOverCalls : Nat
  deriving DecidableEq

/-- The constant `SPAWN_RATE` (line 15). -/
def SPAWN_RATE : Nat := 100

/-- The constant `originalHeight` (line 35). -/
def originalHeight : ℚ := 900

/-- The exact value of the double `Math.PI`, which is `884279719003555 / 2^48`. -/
def Math.PI : ℚ := 884279719003555 / 281474976710656

/-- JavaScript `a || d` on numbers: `d` when `a` is zero, else `a`. -/
def jsOr (a d : ℚ) : ℚ := if a = 0 then d else a

/-- JavaScript `s.includes(t)`: `t` occurs in `s` as a contiguous substring. -/
def includes (s t : String) : Bool := decide (t.data <:+: s.data)

/-- The method `baby.draw` (lines 84-135), without the canvas commands. -/
def baby.draw (g : Game) : Game :=
  let img := if g.baby.crashed then g.babyCryImg
    else if g.baby.velocity < 0 then g.babyUpImg else g.babyDownImg
  if !img.complete || img.naturalWidth == 0 then g
  else
    let targetNeutralHeight := g.canvasHeight * 0.07
    let scale := if g.babyDownImg.complete && decide (g.babyDownImg.naturalHeight > 0)
      then targetNeutralHeight / g.babyDownImg.naturalHeight else g.BABY_SCALE
    let currentScale := if g.baby.crashed && decide (img.naturalHeight > 0)
      then targetNeutralHeight / img.naturalHeight else scale
    let targetRotation := min (Math.PI / 4) (max (-Math.PI / 4) (g.baby.velocity * 0.1))
    let rotation := if !g.baby.crashed
      then g.baby.rotation + (targetRotation - g.baby.rotation) * 0.1
      else Math.PI / 2
    { g with
      BABY_SCALE := scale
      baby := { g.baby with
        w := img.naturalWidth * currentScale
        h := img.naturalHeight * currentScale
        rotation := rotation } }

/-- The function `drawStartScreen` (lines 300-312): only `baby.draw` touches the state. -/
def drawStartScreen (g : Game) : Game := baby.draw g

/-- The function `resize` (lines 38-70); the arguments are `window.innerWidth` and
`window.innerHeight`. -/
def resize (innerWidth innerHeight : ℚ) (g : Game) : Game :=
  let ratio := innerHeight / originalHeight
  let speed := 4 * ratio
  let width := innerWidth * 0.15
  let targetNeutralHeight := innerHeight * 0.07
  let g1 : Game := { g with
    canvasWidth := innerWidth
    canvasHeight := innerHeight
    GRAVITY := 0.4 * ratio
    FLAP_STRENGTH := -8 * ratio
    PIPE_SPEED := if speed < 2 then 2 else speed
    PIPE_GAP := innerHeight * 0.25
    PIPE_WIDTH := if width > 80 then 80 else width
    BABY_SCALE := if g.babyDownImg.complete && decide (g.babyDownImg.naturalHeight > 0)
      then targetNeutralHeight / g.babyDownImg.naturalHeight
      else targetNeutralHeight / 32 }
  if !g1.gameRunning then drawStartScreen g1 else g1

/-- The function `gameOver` (lines 356-363). -/
def gameOver (g : Game) : Game :=
  baby.draw { g with
    gameRunning := false
    baby := { g.baby with crashed := true }
    messageText := "Game Over!\nTap to Restart"
    messageShown := true
    gameOverCalls := g.gameOverCalls + 1 }

/-- The method `baby.update` (lines 137-156). -/
def baby.update (g : Game) : Game :=
  let velocity := g.baby.velocity + g.GRAVITY
  let y := g.baby.y + velocity
  let g1 : Game := { g with baby := { g.baby with velocity := velocity, y := y } }
  let halfH := jsOr (g1.baby.h / 2) 15
  let g2 : Game :=
    if g1.baby.y + halfH ≥ g1.canvasHeight - 20 then
      let a : Game := { g1 with baby := { g1.baby with y := g1.canvasHeight - 20 - halfH } }
      let b : Game := if !a.baby.crashed then gameOver a else a
      { b with baby := { b.baby with velocity := 0 } }
    else g1
  if g2.baby.y - halfH ≤ 0 then
    { g2 with baby := { g2.baby with y := halfH, velocity := 0 } }
  else g2

/-- The method `baby.flap` (lines 158-160). -/
def baby.flap (g : Game) : Game :=
  if !g.baby.crashed then { g with baby := { g.baby with velocity := g.FLAP_STRENGTH } }
  else g

/-- The method `baby.reset` (lines 162-168). -/
def baby.reset (g : Game) : Game :=
  { g with baby := { g.baby with
      x := g.canvasWidth / 4
      y := g.canvasHeight / 2
      velocity := 0
      rotation := 0
      crashed := false } }

/-- The constructor of `Pipe` (lines 194-207); `r` is the value of `Math.random()`. -/
def Pipe.new (g : Game) (r : ℚ) : Pipe :=
  let minPipe := g.canvasHeight * 0.1
  let maxPipe := g.canvasHeight - g.PIPE_GAP - minPipe - 50
  let topHeight := (Int.floor (r * (maxPipe - minPipe + 1)) : ℚ) + minPipe
  { x := g.canvasWidth
    w := g.PIPE_WIDTH
    topHeight := topHeight
    bottomY := topHeight + g.PIPE_GAP
    passed := false }

/-- The method `Pipe.update` (lines 263-283): the pipe `this` is the argument `p`, the
result is the new global state and the new value of the pipe. -/
def Pipe.update (g : Game) (p : Pipe) : Game × Pipe :=
  let p1 : Pipe := { p with x := p.x - g.PIPE_SPEED }
  let bw := jsOr g.baby.w 30 * 0.7
  let bh := jsOr g.baby.h 30 * 0.7
  let bx := g.baby.x - bw / 2
  let by_ := g.baby.y - bh / 2
  let g1 : Game :=
    if bx + bw > p1.x ∧ bx < p1.x + p1.w then
      if by_ < p1.topHeight ∨ by_ + bh > p1.bottomY then gameOver g else g
    else g
  if bx > p1.x + p1.w ∧ p1.passed = false then
    ({ g1 with score := g1.score + 1, scoreText := g1.score + 1 }, { p1 with passed := true })
  else (g1, p1)

/-- Assignment to the global `pipes`, the array that `push` and `splice` mutate. -/
def Game.setPipes (g : Game) (l : List Pipe) : Game := { g with pipes := l }

/-- One iteration of the `for` loop of `loop` (lines 328-336): the loop test, the body
and the `i++`.  The iteration state is the global state and the index `i`.  After a
`splice` the script runs `i--` and then the loop's own `i++`, so the index stays where
it is.  Once the loop test fails the iteration changes nothing. -/
def pipesLoopStep (s : Game × Nat) : Game × Nat :=
  if h : s.2 < s.1.pipes.length then
    let r := Pipe.update s.1 (s.1.pipes.get ⟨s.2, h⟩)
    let g1 : Game := r.1.setPipes (s.1.pipes.set s.2 r.2)
    if r.2.x + r.2.w < -50 then (g1.setPipes (g1.pipes.eraseIdx s.2), s.2)
    else (g1, s.2 + 1)
  else s

/-- The `for` loop of `loop` run from `i = 0`.  Every iteration either removes a pipe or
moves the index forward, so the loop test fails after as many iterations as there are
pipes at loop entry (`pipesLoop_exits` below). -/
def pipesLoopRun (g : Game) : Game × Nat := pipesLoopStep^[g.pipes.length] (g, 0)

/-- The global state when the `for` loop of `loop` is left. -/
def pipesLoop (g : Game) : Game := (pipesLoopRun g).1

/-- The function `loop` (lines 314-354): one tick.  `r` is the value `Math.random()`
returns if a pipe is spawned; `requestAnimationFrame` only schedules the next tick. -/
def loop (r : ℚ) (g : Game) : Game :=
  if !g.gameRunning then g
  else
    let g1 : Game :=
      if g.frames % SPAWN_RATE = 0 then g.setPipes (g.pipes ++ [Pipe.new g r]) else g
    let g2 := pipesLoop g1
    let g3 := baby.draw (baby.update g2)
    { g3 with frames := g3.frames + 1 }

/-- The function `init` (lines 286-298). -/
def init (innerWidth innerHeight : ℚ) (g : Game) : Game :=
  let g1 := resize innerWidth innerHeight g
  let g2 := baby.reset { g1 with gameRunning := false, score := 0, frames := 0, pipes := [] }
  drawStartScreen { g2 with
    scoreText := g2.score
    messageShown := true
    messageText := "Tap or Press Space to Start" }

/-- The function `startGame` (lines 365-383). -/
def startGame (r : ℚ) (g : Game) : Game :=
  if g.gameRunning then g
  else if includes g.messageText "Game Over" then
    let g1 := baby.reset { g with pipes := [], score := 0, scoreText := 0 }
    loop r { g1 with frames := 0, gameRunning := true, messageShown := false }
  else
    loop r { g with gameRunning := true, messageShown := false }

/-- The body shared by the three input handlers (lines 386-401). -/
def onInput (r : ℚ) (g : Game) : Game :=
  baby.flap (if !g.gameRunning then startGame r g else g)

/-! ## Sample states

Concrete states used to exercise the theorems.  They describe a 400 x 900 window after
`resize`, with the sprite images not loaded yet, so that the sprite box is `0 x 0` and
the script falls back to `30` (collision box `21 x 21`, half height `15`). -/

/-- An image that has not finished loading. -/
def noImg : Img := { complete := false, naturalWidth := 0, naturalHeight := 0 }

/-- The body at rest at `(100, 450)`. -/
def sampleBaby : Baby :=
  { x := 100, y := 450, velocity := 0, rotation := 0, w := 0, h := 0, crashed := false }

/-- A running session in a 400 x 900 window with no pipes. -/
def sampleGame : Game :=
  { canvasWidth := 400
    canvasHeight := 900
    GRAVITY := 2 / 5
    FLAP_STRENGTH := -8
    PIPE_SPEED := 4
    PIPE_GAP := 225
    PIPE_WIDTH := 60
    BABY_SCALE := 63 / 32
    gameRunning := true
    frames := 1
    score := 0
    pipes := []
    baby := sampleBaby
    babyUpImg := noImg
    babyDownImg := noImg
    babyCryImg := noImg
    scoreText := 0
    messageText := "Tap or Press Space to Start"
    messageShown := false
    gameOverCalls := 0 }

/-- The state `sampleGame` after a crash: what `gameOver` leaves behind. -/
def crashedGame : Game :=
  { sampleGame with
    gameRunning := false
    baby := { sampleBaby with crashed := true }
    messageText := "Game Over!\nTap to Restart"
    messageShown := true
    gameOverCalls := 1 }

/-- A 400 x 40 window right after `resize` and `baby.reset`: the floor line is at `20`
and the fallback collision half height is `15`, so the body box (height `30`) does not
fit between the ceiling and the floor line. -/
def tinyGame : Game :=
  { sampleGame with
    canvasHeight := 40
    GRAVITY := 4 / 225
    FLAP_STRENGTH := -16 / 45
    PIPE_SPEED := 2
    PIPE_GAP := 10
    BABY_SCALE := 7 / 80
    baby := { sampleBaby with y := 20 } }

/-- A pipe whose x-span covers the body of `sampleGame` after advancing by `4`, with the
gap `[500, 725]` starting below the top `439.5` of the collision box. -/
def hitPipe : Pipe :=
  { x := 94, w := 60, topHeight := 500, bottomY := 725, passed := false }

/-- The body of `sampleGame` moved to `y = 864.8`, two fifths above the height at which
its box bottom reaches the floor line `880`. -/
def floorGame : Game := { sampleGame with baby := { sampleBaby with y := 4324 / 5 } }

/-- A pipe whose gap `[400, 625]` contains the body box of `sampleGame`. -/
def gapPipe : Pipe :=
  { x := 94, w := 60, topHeight := 400, bottomY := 625, passed := false }

/-- A pipe whose trailing edge, `100` after advancing, lies between the left edge `89.5`
and the right edge `110.5` of the collision box of `sampleGame`. -/
def straddlePipe : Pipe :=
  { x := 44, w := 60, topHeight := 400, bottomY := 625, passed := false }

/-- A pipe that the body of `sampleGame` has left behind: trailing edge `56`. -/
def behindPipe : Pipe :=
  { x := 0, w := 60, topHeight := 400, bottomY := 625, passed := false }

/-- The fresh session that `startGame` hands to `loop` after `init` in a 400 x 900
window with the images not loaded. -/
def freshGame : Game := { sampleGame with frames := 0 }

/-- The pipe that the constructor builds in `freshGame` for the draw `r = 1/2`:
`minPipe = 90`, `maxPipe = 535`, `floor(0.5 * 446) + 90 = 313`. -/
def newPipe : Pipe := { x := 400, w := 60, topHeight := 313, bottomY := 538, passed := false }

/-- A pipe, passed long ago, whose trailing edge is at `-59` after advancing by `4`. -/
def gonePipe : Pipe :=
  { x := -115, w := 60, topHeight := 300, bottomY := 525, passed := true }

/-- A running session with two adjacent pipes about to leave the screen, followed by a
pipe that stays. -/
def removalGame : Game := sampleGame.setPipes [gonePipe, gonePipe, gapPipe]

/-- A running session whose only pipe is hit in the next tick. -/
def crashTick : Game := sampleGame.setPipes [hitPipe]

/-! ## Definitions used to state the claims -/

/-- Every pipe of a list updated exactly once, front to back, threading the global
state through the calls. -/
def updateAll : Game → List Pipe → Game × List Pipe
  | g, [] => (g, [])
  | g, p :: ps =>
    let r := Pipe.update g p
    let rest := updateAll r.1 ps
    (rest.1, r.2 :: rest.2)

/-- The operation `advance(speed)` of the specification: `x -= speed`. -/
def Pipe.advance (speed : ℚ) (p : Pipe) : Pipe := { p with x := p.x - speed }

/-- The removal pass as the specification words it: advance every pipe, then keep those
with `x + w >= -50`, in the original order. -/
def removalSpec (speed : ℚ) (ps : List Pipe) : List Pipe :=
  (ps.map (Pipe.advance speed)).filter (fun p => decide (p.x + p.w ≥ -50))

/-- Two pipes agree on position and gap geometry (everything but the `passed` flag). -/
def Pipe.sameGeometry (q p : Pipe) : Prop :=
  q.x = p.x ∧ q.w = p.w ∧ q.topHeight = p.topHeight ∧ q.bottomY = p.bottomY

/-- What one call of `Pipe.update` adds to `score`. -/
def scoreGain (g : Game) (p : Pipe) : ℤ := ((Pipe.update g p).1.score : ℤ) - (g.score : ℤ)

/-- What a sequence of calls of `Pipe.update` on one pipe adds to `score` in total; the
k-th call finds the global state `gs[k]` (arbitrary body positions). -/
def totalGain : Pipe → List Game → ℤ
  | _, [] => 0
  | p, g :: gs => scoreGain g p + totalGain (Pipe.update g p).2 gs

/-- The pipe after a sequence of calls of `Pipe.update`. -/
def pipeAfter : Pipe → List Game → Pipe
  | p, [] => p
  | p, g :: gs => pipeAfter (Pipe.update g p).2 gs

/-- The test that guards `score++` in `Pipe.update`, apart from the `passed` flag: the
left edge `bx` of the collision box is beyond the trailing edge of the advanced pipe. -/
def passCondition (g : Game) (p : Pipe) : Prop :=
  g.baby.x - jsOr g.baby.w 30 * 0.7 / 2 > p.x - g.PIPE_SPEED + p.w

instance (g : Game) (p : Pipe) : Decidable (passCondition g p) := by
  unfold passCondition; infer_instance

/-- The floor or the ceiling test of `baby.update` succeeds in state `g`. -/
def baby.clamps (g : Game) : Prop :=
  let y := g.baby.y + (g.baby.velocity + g.GRAVITY)
  let halfH := jsOr (g.baby.h / 2) 15
  y + halfH ≥ g.canvasHeight - 20 ∨ y - halfH ≤ 0

/-- The state in which `startGame` hands over to `loop`: running, counters at zero, no
pipes, the body at its launch position and at rest. -/
def freshSession (g : Game) : Prop :=
  g.gameRunning = true ∧ g.frames = 0 ∧ g.score = 0 ∧ g.pipes = [] ∧
    g.baby.y = g.canvasHeight / 2 ∧ g.baby.velocity = 0 ∧ g.baby.crashed = false

/-! ## Frame lemmas: what `baby.draw` and `gameOver` leave alone -/

@[simp] theorem baby_draw_score (g : Game) : (baby.draw g).score = g.score := by
  unfold baby.draw; simp only []; split_ifs <;> rfl

@[simp] theorem baby_draw_scoreText (g : Game) : (baby.draw g).scoreText = g.scoreText := by
  unfold baby.draw; simp only []; split_ifs <;> rfl

@[simp] theorem baby_draw_frames (g : Game) : (baby.draw g).frames = g.frames := by
  unfold baby.draw; simp only []; split_ifs <;> rfl

@[simp] theorem baby_draw_pipes (g : Game) : (baby.draw g).pipes = g.pipes := by
  unfold baby.draw; simp only []; split_ifs <;> rfl

@[simp] theorem baby_draw_gameRunning (g : Game) :
    (baby.draw g).gameRunning = g.gameRunning := by
  unfold baby.draw; simp only []; split_ifs <;> rfl

@[simp] theorem baby_draw_gameOverCalls (g : Game) :
    (baby.draw g).gameOverCalls = g.gameOverCalls := by
  unfold baby.draw; simp only []; split_ifs <;> rfl

@[simp] theorem baby_draw_messageText (g : Game) :
    (baby.draw g).messageText = g.messageText := by
  unfold baby.draw; simp only []; split_ifs <;> rfl

@[simp] theorem baby_draw_messageShown (g : Game) :
    (baby.draw g).messageShown = g.messageShown := by
  unfold baby.draw; simp only []; split_ifs <;> rfl

@[simp] theorem baby_draw_canvasHeight (g : Game) :
    (baby.draw g).canvasHeight = g.canvasHeight := by
  unfold baby.draw; simp only []; split_ifs <;> rfl

@[simp] theorem baby_draw_canvasWidth (g : Game) :
    (baby.draw g).canvasWidth = g.canvasWidth := by
  unfold baby.draw; simp only []; split_ifs <;> rfl

@[simp] theorem baby_draw_GRAVITY (g : Game) : (baby.draw g).GRAVITY = g.GRAVITY := by
  unfold baby.draw; simp only []; split_ifs <;> rfl

@[simp] theorem baby_draw_FLAP_STRENGTH (g : Game) :
    (baby.draw g).FLAP_STRENGTH = g.FLAP_STRENGTH := by
  unfold baby.draw; simp only []; split_ifs <;> rfl

@[simp] theorem baby_draw_PIPE_SPEED (g : Game) : (baby.draw g).PIPE_SPEED = g.PIPE_SPEED := by
  unfold baby.draw; simp only []; split_ifs <;> rfl

@[simp] theorem baby_draw_PIPE_GAP (g : Game) : (baby.draw g).PIPE_GAP = g.PIPE_GAP := by
  unfold baby.draw; simp only []; split_ifs <;> rfl

@[simp] theorem baby_draw_PIPE_WIDTH (g : Game) : (baby.draw g).PIPE_WIDTH = g.PIPE_WIDTH := by
  unfold baby.draw; simp only []; split_ifs <;> rfl

@[simp] theorem baby_draw_x (g : Game) : (baby.draw g).baby.x = g.baby.x := by
  unfold baby.draw; simp only []; split_ifs <;> rfl

@[simp] theorem baby_draw_y (g : Game) : (baby.draw g).baby.y = g.baby.y := by
  unfold baby.draw; simp only []; split_ifs <;> rfl

@[simp] theorem baby_draw_velocity (g : Game) :
    (baby.draw g).baby.velocity = g.baby.velocity := by
  unfold baby.draw; simp only []; split_ifs <;> rfl

@[simp] theorem baby_draw_crashed (g : Game) :
    (baby.draw g).baby.crashed = g.baby.crashed := by
  unfold baby.draw; simp only []; split_ifs <;> rfl

@[simp] theorem gameOver_score (g : Game) : (gameOver g).score = g.score := by
  simp [gameOver]

@[simp] theorem gameOver_scoreText (g : Game) : (gameOver g).scoreText = g.scoreText := by
  simp [gameOver]

@[simp] theorem gameOver_frames (g : Game) : (gameOver g).frames = g.frames := by
  simp [gameOver]

@[simp] theorem gameOver_pipes (g : Game) : (gameOver g).pipes = g.pipes := by
  simp [gameOver]

@[simp] theorem gameOver_gameRunning (g : Game) : (gameOver g).gameRunning = false := by
  simp [gameOver]

@[simp] theorem gameOver_crashed (g : Game) : (gameOver g).baby.crashed = true := by
  simp [gameOver]

@[simp] theorem gameOver_gameOverCalls (g : Game) :
    (gameOver g).gameOverCalls = g.gameOverCalls + 1 := by
  simp [gameOver]

@[simp] theorem gameOver_canvasHeight (g : Game) :
    (gameOver g).canvasHeight = g.canvasHeight := by
  simp [gameOver]

@[simp] theorem gameOver_GRAVITY (g : Game) : (gameOver g).GRAVITY = g.GRAVITY := by
  simp [gameOver]

@[simp] theorem gameOver_PIPE_SPEED (g : Game) : (gameOver g).PIPE_SPEED = g.PIPE_SPEED := by
  simp [gameOver]

@[simp] theorem gameOver_x (g : Game) : (gameOver g).baby.x = g.baby.x := by
  simp [gameOver]

@[simp] theorem gameOver_y (g : Game) : (gameOver g).baby.y = g.baby.y := by
  simp [gameOver]

@[simp] theorem gameOver_velocity (g : Game) : (gameOver g).baby.velocity = g.baby.velocity := by
  simp [gameOver]

/-! ## `baby.flap` -/

/-- C3: `baby.flap` on a body that is not crashed sets the velocity to exactly
`FLAP_STRENGTH`, whatever it was, and changes no other field; on a crashed body it
changes nothing; in both cases `x`, `y`, `rotation` and `crashed` are unchanged. -/
theorem flap_spec (g : Game) :
    (g.baby.crashed = false →
      (baby.flap g).baby.velocity = g.FLAP_STRENGTH ∧
      baby.flap g = { g with baby := { g.baby with velocity := g.FLAP_STRENGTH } }) ∧
    (g.baby.crashed = true → baby.flap g = g) ∧
    (baby.flap g).baby.x = g.baby.x ∧ (baby.flap g).baby.y = g.baby.y ∧
    (baby.flap g).baby.rotation = g.baby.rotation ∧
    (baby.flap g).baby.crashed = g.baby.crashed := by
  unfold baby.flap
  cases hc : g.baby.crashed <;> simp [hc]

/-- C3 at work: the running sample state gets velocity `-8`, the crashed one is left
as it is. -/
theorem flap_spec_witness :
    (baby.flap sampleGame).baby.velocity = -8 ∧ baby.flap crashedGame = crashedGame :=
  ⟨((flap_spec sampleGame).1 rfl).1, (flap_spec crashedGame).2.1 rfl⟩

/-! ## `Pipe.update`: collision -/

/-- C1: one call of `Pipe.update` calls `gameOver` (once) exactly when the collision
box, the sprite box shrunk to 70% and centred on the body, strictly overlaps the x-span
of the advanced pipe and is not fully inside the gap; otherwise `gameOver` is not called.
The call of `gameOver` leaves the session stopped and the body crashed. -/
theorem pipe_update_crash_iff (g : Game) (p : Pipe) :
    let bw := 0.7 * jsOr g.baby.w 30
    let bh := 0.7 * jsOr g.baby.h 30
    let bx := g.baby.x - bw / 2
    let by_ := g.baby.y - bh / 2
    let hit := (bx + bw > p.x - g.PIPE_SPEED ∧ bx < p.x - g.PIPE_SPEED + p.w) ∧
      (by_ < p.topHeight ∨ by_ + bh > p.bottomY)
    ((Pipe.update g p).1.gameOverCalls = g.gameOverCalls + 1 ↔ hit) ∧
    ((Pipe.update g p).1.gameOverCalls = g.gameOverCalls ↔ ¬ hit) ∧
    (hit ↔
      ((Pipe.update g p).1.gameRunning = false ∧ (Pipe.update g p).1.baby.crashed = true ∧
        (Pipe.update g p).1.gameOverCalls = g.gameOverCalls + 1)) := by
  intro bw bh bx by_ hit
  have hbw : jsOr g.baby.w 30 * 0.7 = bw := by simp only [bw]; ring
  have hbh : jsOr g.baby.h 30 * 0.7 = bh := by simp only [bh]; ring
  unfold Pipe.update
  simp only [hbw, hbh]
  by_cases h1 : bx + bw > p.x - g.PIPE_SPEED ∧ bx < p.x - g.PIPE_SPEED + p.w
  · by_cases h2 : by_ < p.topHeight ∨ by_ + bh > p.bottomY
    · have hh : hit := ⟨h1, h2⟩
      simp only [bx, by_] at h1 h2
      split_ifs <;> simp [h1, h2] <;> exact hh
    · have hh : ¬ hit := fun hh => h2 hh.2
      simp only [bx, by_] at h1 h2
      split_ifs <;> simp [h1, h2] <;> exact hh
  · have hh : ¬ hit := fun hh => h1 hh.1
    simp only [bx, by_] at h1
    split_ifs <;> simp [h1] <;> exact hh

/-! ## `Pipe.update`: what it does to the score, the pipe and the rest of the state -/

theorem gameOver_setPipes (g : Game) (l : List Pipe) :
    gameOver (g.setPipes l) = (gameOver g).setPipes l := by
  unfold gameOver baby.draw Game.setPipes; simp only []; split_ifs <;> rfl


@[simp] theorem setPipes_pipes (g : Game) (l : List Pipe) : (g.setPipes l).pipes = l := rfl

@[simp] theorem setPipes_setPipes (g : Game) (l m : List Pipe) :
    (g.setPipes l).setPipes m = g.setPipes m := rfl

theorem setPipes_self (g : Game) (l : List Pipe) (h : g.pipes = l) : g.setPipes l = g := by
  subst h; rfl

@[simp] theorem setPipes_score (g : Game) (l : List Pipe) : (g.setPipes l).score = g.score :=
  rfl

@[simp] theorem setPipes_frames (g : Game) (l : List Pipe) :
    (g.setPipes l).frames = g.frames := rfl

@[simp] theorem setPipes_PIPE_SPEED (g : Game) (l : List Pipe) :
    (g.setPipes l).PIPE_SPEED = g.PIPE_SPEED := rfl

@[simp] theorem setPipes_baby (g : Game) (l : List Pipe) : (g.setPipes l).baby = g.baby := rfl

@[simp] theorem setPipes_gameRunning (g : Game) (l : List Pipe) :
    (g.setPipes l).gameRunning = g.gameRunning := rfl

@[simp] theorem setPipes_gameOverCalls (g : Game) (l : List Pipe) :
    (g.setPipes l).gameOverCalls = g.gameOverCalls := rfl

@[simp] theorem setPipes_GRAVITY (g : Game) (l : List Pipe) :
    (g.setPipes l).GRAVITY = g.GRAVITY := rfl

@[simp] theorem setPipes_canvasHeight (g : Game) (l : List Pipe) :
    (g.setPipes l).canvasHeight = g.canvasHeight := rfl

theorem Pipe_update_setPipes (g : Game) (l : List Pipe) (p : Pipe) :
    Pipe.update (g.setPipes l) p =
      ((Pipe.update g p).1.setPipes l, (Pipe.update g p).2) := by
  unfold Pipe.update
  simp only [gameOver_setPipes, setPipes_baby, setPipes_PIPE_SPEED]
  split_ifs <;> rfl

@[simp] theorem Pipe_update_pipes (g : Game) (p : Pipe) :
    (Pipe.update g p).1.pipes = g.pipes := by
  unfold Pipe.update; simp only []; split_ifs <;> simp

@[simp] theorem Pipe_update_frames (g : Game) (p : Pipe) :
    (Pipe.update g p).1.frames = g.frames := by
  unfold Pipe.update; simp only []; split_ifs <;> simp

@[simp] theorem Pipe_update_PIPE_SPEED (g : Game) (p : Pipe) :
    (Pipe.update g p).1.PIPE_SPEED = g.PIPE_SPEED := by
  unfold Pipe.update; simp only []; split_ifs <;> simp

@[simp] theorem Pipe_update_x (g : Game) (p : Pipe) :
    (Pipe.update g p).2.x = p.x - g.PIPE_SPEED := by
  unfold Pipe.update; simp only []; split_ifs <;> rfl

@[simp] theorem Pipe_update_w (g : Game) (p : Pipe) : (Pipe.update g p).2.w = p.w := by
  unfold Pipe.update; simp only []; split_ifs <;> rfl

@[simp] theorem Pipe_update_topHeight (g : Game) (p : Pipe) :
    (Pipe.update g p).2.topHeight = p.topHeight := by
  unfold Pipe.update; simp only []; split_ifs <;> rfl

@[simp] theorem Pipe_update_bottomY (g : Game) (p : Pipe) :
    (Pipe.update g p).2.bottomY = p.bottomY := by
  unfold Pipe.update; simp only []; split_ifs <;> rfl

theorem Pipe_update_score (g : Game) (p : Pipe) :
    (Pipe.update g p).1.score =
      if passCondition g p ∧ p.passed = false then g.score + 1 else g.score := by
  unfold Pipe.update passCondition
  simp only []
  split_ifs <;> simp

theorem Pipe_update_passed (g : Game) (p : Pipe) :
    (Pipe.update g p).2.passed =
      if passCondition g p ∧ p.passed = false then true else p.passed := by
  unfold Pipe.update passCondition
  simp only []
  split_ifs <;> rfl

theorem Pipe_update_score_le (g : Game) (p : Pipe) : g.score ≤ (Pipe.update g p).1.score := by
  rw [Pipe_update_score]; split_ifs <;> omega

theorem scoreGain_eq (g : Game) (p : Pipe) :
    scoreGain g p = if passCondition g p ∧ p.passed = false then 1 else 0 := by
  unfold scoreGain
  rw [Pipe_update_score]
  split_ifs <;> simp

theorem totalGain_of_passed (gs : List Game) :
    ∀ p : Pipe, p.passed = true → totalGain p gs = 0 ∧ (pipeAfter p gs).passed = true := by
  induction gs with
  | nil => intro p hp; exact ⟨rfl, hp⟩
  | cons g gs ih =>
    intro p hp
    have h1 : scoreGain g p = 0 := by rw [scoreGain_eq]; simp [hp]
    have h2 : (Pipe.update g p).2.passed = true := by rw [Pipe_update_passed]; simp [hp]
    have h3 := ih _ h2
    simp only [totalGain, pipeAfter, h1, h3.1, h3.2, add_zero, and_self]

theorem totalGain_bounds (gs : List Game) :
    ∀ p : Pipe, 0 ≤ totalGain p gs ∧ totalGain p gs ≤ 1 := by
  induction gs with
  | nil => intro p; simp [totalGain]
  | cons g gs ih =>
    intro p
    simp only [totalGain]
    by_cases h : passCondition g p ∧ p.passed = false
    · have h2 : (Pipe.update g p).2.passed = true := by rw [Pipe_update_passed]; simp [h]
      rw [scoreGain_eq, if_pos h, (totalGain_of_passed gs _ h2).1]
      simp
    · rw [scoreGain_eq, if_neg h]
      simpa using ih _

/-! ## The pipe pass of `loop` -/

theorem updateAll_setPipes (ps : List Pipe) :
    ∀ (g : Game) (l : List Pipe),
      updateAll (g.setPipes l) ps = ((updateAll g ps).1.setPipes l, (updateAll g ps).2) := by
  induction ps with
  | nil => intro g l; rfl
  | cons p ps ih =>
    intro g l
    simp only [updateAll]
    rw [Pipe_update_setPipes g l p]
    simp only []
    rw [ih (Pipe.update g p).1 l]

@[simp] theorem updateAll_pipes (ps : List Pipe) :
    ∀ g : Game, (updateAll g ps).1.pipes = g.pipes := by
  induction ps with
  | nil => intro g; rfl
  | cons p ps ih => intro g; simp only [updateAll, ih, Pipe_update_pipes]

@[simp] theorem updateAll_frames (ps : List Pipe) :
    ∀ g : Game, (updateAll g ps).1.frames = g.frames := by
  induction ps with
  | nil => intro g; rfl
  | cons p ps ih => intro g; simp only [updateAll, ih, Pipe_update_frames]

@[simp] theorem updateAll_PIPE_SPEED (ps : List Pipe) :
    ∀ g : Game, (updateAll g ps).1.PIPE_SPEED = g.PIPE_SPEED := by
  induction ps with
  | nil => intro g; rfl
  | cons p ps ih => intro g; simp only [updateAll, ih, Pipe_update_PIPE_SPEED]

theorem updateAll_score_le (ps : List Pipe) :
    ∀ g : Game, g.score ≤ (updateAll g ps).1.score := by
  induction ps with
  | nil => intro g; exact le_refl _
  | cons p ps ih =>
    intro g
    exact le_trans (Pipe_update_score_le g p) (ih _)

theorem pipesLoopStep_of_lt (g : Game) (i : Nat) (h : i < g.pipes.length) :
    pipesLoopStep (g, i) =
      if (Pipe.update g (g.pipes.get ⟨i, h⟩)).2.x + (Pipe.update g (g.pipes.get ⟨i, h⟩)).2.w
          < -50 then
        ((Pipe.update g (g.pipes.get ⟨i, h⟩)).1.setPipes
          ((g.pipes.set i (Pipe.update g (g.pipes.get ⟨i, h⟩)).2).eraseIdx i), i)
      else
        ((Pipe.update g (g.pipes.get ⟨i, h⟩)).1.setPipes
          (g.pipes.set i (Pipe.update g (g.pipes.get ⟨i, h⟩)).2), i + 1) := by
  unfold pipesLoopStep
  simp only [dif_pos h]
  split_ifs <;> rfl

/-- The index loop started at `done.length` on the list `done ++ rest` updates the pipes
of `rest` one after the other and keeps those that are not off screen; it ends with the
index at the end of the list. -/
theorem pipesLoopStep_iterate (rest : List Pipe) :
    ∀ (done : List Pipe) (g : Game), g.pipes = done ++ rest →
      pipesLoopStep^[rest.length] (g, done.length) =
        ((updateAll g rest).1.setPipes
            (done ++ (updateAll g rest).2.filter (fun q => decide (q.x + q.w ≥ -50))),
          (done ++ (updateAll g rest).2.filter (fun q => decide (q.x + q.w ≥ -50))).length) := by
  induction rest with
  | nil =>
    intro done g hg
    simp only [List.length_nil, Function.iterate_zero, id_eq, updateAll, List.filter_nil,
      List.append_nil]
    rw [setPipes_self g done (by simpa using hg)]
  | cons p rest ih =>
    intro done g hg
    have hlen : done.length < g.pipes.length := by simp [hg]
    have hget : g.pipes.get ⟨done.length, hlen⟩ = p := by
      have h0 : (done ++ p :: rest).get ⟨done.length, by simp⟩ = p := by
        rw [List.get_eq_getElem, List.getElem_append_right (le_refl _)]
        simp
      simpa [hg] using h0
    have hset : g.pipes.set done.length (Pipe.update g p).2 =
        done ++ (Pipe.update g p).2 :: rest := by simp [hg]
    rw [List.length_cons, Function.iterate_succ_apply, pipesLoopStep_of_lt g done.length hlen]
    simp only [hget, hset]
    by_cases hoff : (Pipe.update g p).2.x + (Pipe.update g p).2.w < -50
    · rw [if_pos hoff]
      have herase : (done ++ (Pipe.update g p).2 :: rest).eraseIdx done.length =
          done ++ rest := by
        simp [List.eraseIdx_append_of_length_le]
      rw [herase, ih done ((Pipe.update g p).1.setPipes (done ++ rest)) rfl,
        updateAll_setPipes]
      have hk : decide ((Pipe.update g p).2.x + (Pipe.update g p).2.w ≥ -50) = false := by
        simpa using hoff
      simp only [updateAll, List.filter_cons, hk, setPipes_setPipes]
      rfl
    · rw [if_neg hoff]
      have h := ih (done ++ [(Pipe.update g p).2])
        ((Pipe.update g p).1.setPipes (done ++ (Pipe.update g p).2 :: rest)) (by simp)
      have hl : (done ++ [(Pipe.update g p).2]).length = done.length + 1 := by simp
      rw [hl] at h
      rw [h, updateAll_setPipes]
      have hk : decide ((Pipe.update g p).2.x + (Pipe.update g p).2.w ≥ -50) = true := by
        simpa using hoff
      simp only [updateAll, List.filter_cons, hk, setPipes_setPipes, if_true,
        List.append_assoc, List.singleton_append]

/-- The whole pipe pass of one tick, as a sequential update followed by a filter. -/
theorem pipesLoopRun_eq (g : Game) :
    pipesLoopRun g =
      ((updateAll g g.pipes).1.setPipes
          ((updateAll g g.pipes).2.filter (fun q => decide (q.x + q.w ≥ -50))),
        ((updateAll g g.pipes).2.filter (fun q => decide (q.x + q.w ≥ -50))).length) := by
  have h := pipesLoopStep_iterate g.pipes [] g rfl
  simpa [pipesLoopRun] using h

/-- When `pipesLoopRun` stops iterating, the loop test `i < pipes.length` is false. -/
theorem pipesLoop_exits (g : Game) :
    ¬ ((pipesLoopRun g).2 < (pipesLoopRun g).1.pipes.length) := by
  rw [pipesLoopRun_eq]; simp

theorem pipesLoop_eq (g : Game) :
    pipesLoop g =
      (updateAll g g.pipes).1.setPipes
        ((updateAll g g.pipes).2.filter (fun q => decide (q.x + q.w ≥ -50))) := by
  unfold pipesLoop
  rw [pipesLoopRun_eq]

theorem updateAll_geometry (ps : List Pipe) :
    ∀ g : Game, List.Forall₂ Pipe.sameGeometry (updateAll g ps).2
      (ps.map (Pipe.advance g.PIPE_SPEED)) := by
  induction ps with
  | nil => intro g; exact List.Forall₂.nil
  | cons p ps ih =>
    intro g
    simp only [updateAll, List.map_cons]
    refine List.Forall₂.cons ?_ ?_
    · simp [Pipe.sameGeometry, Pipe.advance]
    · simpa using ih (Pipe.update g p).1

theorem forall₂_filter_geometry {l₁ l₂ : List Pipe}
    (h : List.Forall₂ Pipe.sameGeometry l₁ l₂) :
    List.Forall₂ Pipe.sameGeometry (l₁.filter (fun q => decide (q.x + q.w ≥ -50)))
      (l₂.filter (fun q => decide (q.x + q.w ≥ -50))) := by
  induction h with
  | nil => exact List.Forall₂.nil
  | @cons a b l₁ l₂ hab _ ih =>
    have hk : decide (a.x + a.w ≥ -50) = decide (b.x + b.w ≥ -50) := by
      rw [hab.1, hab.2.1]
    simp only [List.filter_cons, hk]
    split_ifs
    · exact List.Forall₂.cons hab ih
    · exact ih

/-- C7: the per-tick pass over `pipes` (index loop with `splice` and `i--`) updates every
pipe of the input list exactly once, front to back, and leaves exactly the updated pipes
with `x + w >= -50`, in their original order; each updated pipe is the input pipe
advanced by `PIPE_SPEED`, so the result agrees, pipe by pipe, with "advance all, then
filter".  The loop is left after as many iterations as the list had pipes. -/
theorem pipe_removal_refines_filter (g : Game) :
    (pipesLoop g).pipes =
      (updateAll g g.pipes).2.filter (fun q => decide (q.x + q.w ≥ -50)) ∧
    List.Forall₂ Pipe.sameGeometry (updateAll g g.pipes).2
      (g.pipes.map (Pipe.advance g.PIPE_SPEED)) ∧
    List.Forall₂ Pipe.sameGeometry (pipesLoop g).pipes (removalSpec g.PIPE_SPEED g.pipes) ∧
    ¬ ((pipesLoopRun g).2 < (pipesLoopRun g).1.pipes.length) ∧
    pipesLoopStep (pipesLoopRun g) = pipesLoopRun g := by
  have hexit := pipesLoop_exits g
  refine ⟨?_, updateAll_geometry g.pipes g, ?_, hexit, ?_⟩
  · rw [pipesLoop_eq]; rfl
  · rw [pipesLoop_eq]
    exact forall₂_filter_geometry (updateAll_geometry g.pipes g)
  · unfold pipesLoopStep
    rw [dif_neg hexit]

/-- The pipe pass on `removalGame`: both adjacent off-screen pipes are removed in one
pass, and the pipe behind them is updated once and kept. -/
theorem pipesLoop_removalGame :
    (pipesLoop removalGame).pipes = [{ gapPipe with x := 90 }] := by
  rw [pipesLoop_eq]
  norm_num [removalGame, updateAll, Pipe.update, Game.setPipes, sampleGame, sampleBaby,
    gonePipe, gapPipe, jsOr]

/-! ## `baby.update` -/

@[simp] theorem baby_update_score (g : Game) : (baby.update g).score = g.score := by
  unfold baby.update; simp only []; split_ifs <;> simp

@[simp] theorem baby_update_frames (g : Game) : (baby.update g).frames = g.frames := by
  unfold baby.update; simp only []; split_ifs <;> simp

@[simp] theorem baby_update_pipes (g : Game) : (baby.update g).pipes = g.pipes := by
  unfold baby.update; simp only []; split_ifs <;> simp

@[simp] theorem baby_update_GRAVITY (g : Game) : (baby.update g).GRAVITY = g.GRAVITY := by
  unfold baby.update; simp only []; split_ifs <;> simp

@[simp] theorem baby_update_canvasHeight (g : Game) :
    (baby.update g).canvasHeight = g.canvasHeight := by
  unfold baby.update; simp only []; split_ifs <;> simp

theorem baby_update_of_not_clamps (g : Game) (h : ¬ baby.clamps g) :
    baby.update g =
      { g with baby := { g.baby with
          velocity := g.baby.velocity + g.GRAVITY
          y := g.baby.y + (g.baby.velocity + g.GRAVITY) } } := by
  unfold baby.clamps at h
  simp only [not_or] at h
  unfold baby.update
  simp only [if_neg h.1, if_neg h.2]

/-- The score never decreases during a tick. -/
theorem loop_score_le (r : ℚ) (g : Game) : g.score ≤ (loop r g).score := by
  unfold loop
  split_ifs with h1 h2
  · exact le_refl _
  · simp only [baby_draw_score, baby_update_score]
    rw [pipesLoop_eq]
    exact updateAll_score_le _ (g.setPipes (g.pipes ++ [Pipe.new g r]))
  · simp only [baby_draw_score, baby_update_score]
    rw [pipesLoop_eq]
    exact updateAll_score_le _ g

/-- C2: over any sequence of calls of `Pipe.update` on one pipe, with arbitrary global
states, the pipe adds at most 1 to `score`; a call in which the pass condition holds
with `passed == false` adds exactly 1 and sets `passed`, and from a pipe with `passed`
set every later call adds 0; no call, and no tick, decreases the score. -/
theorem score_once_per_pipe (p : Pipe) (gs : List Game) :
    (0 ≤ totalGain p gs ∧ totalGain p gs ≤ 1) ∧
    (∀ g : Game, passCondition g p ∧ p.passed = false →
      scoreGain g p = 1 ∧ (Pipe.update g p).1.score = g.score + 1 ∧
      (Pipe.update g p).2.passed = true ∧
      totalGain (Pipe.update g p).2 gs = 0) ∧
    (p.passed = true → totalGain p gs = 0 ∧ (pipeAfter p gs).passed = true) ∧
    (∀ g : Game, ¬ (passCondition g p ∧ p.passed = false) →
      (Pipe.update g p).1.score = g.score ∧ (Pipe.update g p).2.passed = p.passed) ∧
    (∀ g : Game, g.score ≤ (Pipe.update g p).1.score) ∧
    (∀ (r : ℚ) (g : Game), g.score ≤ (loop r g).score) := by
  refine ⟨totalGain_bounds gs p, ?_, totalGain_of_passed gs p, ?_,
    fun g => Pipe_update_score_le g p, loop_score_le⟩
  · intro g h
    have h2 : (Pipe.update g p).2.passed = true := by rw [Pipe_update_passed, if_pos h]
    refine ⟨by rw [scoreGain_eq, if_pos h], by rw [Pipe_update_score, if_pos h], h2, ?_⟩
    exact (totalGain_of_passed gs _ h2).1
  · intro g h
    exact ⟨by rw [Pipe_update_score, if_neg h], by rw [Pipe_update_passed, if_neg h]⟩

/-- C10, as the script has it: `Pipe.update` increments `score` (by exactly 1) if and
only if `passed` was false and the left edge `bx` of the collision box is beyond the
trailing edge `x + w` of the advanced pipe; otherwise the score is unchanged. -/
theorem score_awarded_iff (g : Game) (p : Pipe) :
    ((Pipe.update g p).1.score = g.score + 1 ↔
      (p.passed = false ∧
        g.baby.x - 0.7 * jsOr g.baby.w 30 / 2 > p.x - g.PIPE_SPEED + p.w)) ∧
    ((Pipe.update g p).1.score = g.score ↔
      ¬ (p.passed = false ∧
        g.baby.x - 0.7 * jsOr g.baby.w 30 / 2 > p.x - g.PIPE_SPEED + p.w)) := by
  have hc : (g.baby.x - 0.7 * jsOr g.baby.w 30 / 2 > p.x - g.PIPE_SPEED + p.w) ↔
      passCondition g p := by
    unfold passCondition
    rw [mul_comm (0.7 : ℚ)]
  rw [Pipe_update_score, hc]
  by_cases h : passCondition g p ∧ p.passed = false
  · rw [if_pos h]; simp [h.1, h.2]
  · rw [if_neg h]
    have h2 : ¬ (p.passed = false ∧ passCondition g p) := fun hh => h ⟨hh.2, hh.1⟩
    simp [h2]

/-! ## The claims on the sample states -/

theorem passCondition_behindPipe : passCondition sampleGame behindPipe := by
  unfold passCondition
  norm_num [sampleGame, sampleBaby, behindPipe, jsOr]

theorem not_passCondition_straddlePipe : ¬ passCondition sampleGame straddlePipe := by
  unfold passCondition
  norm_num [sampleGame, sampleBaby, straddlePipe, jsOr]

/-- C2 at work: the pipe left behind scores once in `sampleGame` and nothing in a second
call; a pipe already passed scores nothing; the pipe still astride the body scores
nothing and stays unpassed. -/
theorem score_once_per_pipe_witness :
    (scoreGain sampleGame behindPipe = 1 ∧
      (Pipe.update sampleGame behindPipe).1.score = sampleGame.score + 1 ∧
      (Pipe.update sampleGame behindPipe).2.passed = true ∧
      totalGain (Pipe.update sampleGame behindPipe).2 [sampleGame] = 0) ∧
    (totalGain { behindPipe with passed := true } [sampleGame] = 0 ∧
      (pipeAfter { behindPipe with passed := true } [sampleGame]).passed = true) ∧
    ((Pipe.update sampleGame straddlePipe).1.score = sampleGame.score ∧
      (Pipe.update sampleGame straddlePipe).2.passed = straddlePipe.passed) :=
  ⟨(score_once_per_pipe behindPipe [sampleGame]).2.1 sampleGame
      ⟨passCondition_behindPipe, rfl⟩,
    (score_once_per_pipe { behindPipe with passed := true } [sampleGame]).2.2.1 rfl,
    (score_once_per_pipe straddlePipe [sampleGame]).2.2.2.1 sampleGame
      (fun h => not_passCondition_straddlePipe h.1)⟩

/-- C10 as claimed fails: in `sampleGame` the right edge `110.5` of the collision box is
beyond the trailing edge `100` of the advanced `straddlePipe`, whose `passed` is false,
yet `Pipe.update` does not increment the score, because the left edge `89.5` is not. -/
theorem score_awarded_right_edge_counterexample :
    ¬ ((Pipe.update sampleGame straddlePipe).1.score = sampleGame.score + 1 ↔
      (straddlePipe.passed = false ∧
        (sampleGame.baby.x - 0.7 * jsOr sampleGame.baby.w 30 / 2) +
            0.7 * jsOr sampleGame.baby.w 30 >
          straddlePipe.x - sampleGame.PIPE_SPEED + straddlePipe.w)) := by
  intro h
  have hr : straddlePipe.passed = false ∧
      (sampleGame.baby.x - 0.7 * jsOr sampleGame.baby.w 30 / 2) +
          0.7 * jsOr sampleGame.baby.w 30 >
        straddlePipe.x - sampleGame.PIPE_SPEED + straddlePipe.w := by
    refine ⟨rfl, ?_⟩
    norm_num [sampleGame, sampleBaby, straddlePipe, jsOr]
  have hs := h.2 hr
  rw [Pipe_update_score, if_neg (fun hh => not_passCondition_straddlePipe hh.1)] at hs
  omega

/-- Scenario D of the specification on `sampleGame`: the box top `439.5` is above the
gap top `500` of `hitPipe` while the x-spans overlap, and `gameOver` is called. -/
theorem hitPipe_crashes :
    (Pipe.update sampleGame hitPipe).1.gameOverCalls = sampleGame.gameOverCalls + 1 ∧
    (Pipe.update sampleGame hitPipe).1.gameRunning = false ∧
    (Pipe.update sampleGame hitPipe).1.baby.crashed = true := by
  unfold Pipe.update
  norm_num [sampleGame, sampleBaby, hitPipe, jsOr]

/-- Scenario C of the specification on `sampleGame`: the box `[439.5, 460.5]` is inside
the gap `[400, 625]` of `gapPipe` while the x-spans overlap; `gameOver` is not called. -/
theorem gapPipe_passes_through :
    (Pipe.update sampleGame gapPipe).1.gameOverCalls = sampleGame.gameOverCalls ∧
    (Pipe.update sampleGame gapPipe).1.gameRunning = true ∧
    (Pipe.update sampleGame gapPipe).1.baby.crashed = false := by
  unfold Pipe.update
  norm_num [sampleGame, sampleBaby, gapPipe, jsOr]

/-! ## `baby.update`: clamping and gravity -/

/-- After a floor hit the velocity is 0, whether or not the ceiling clamp follows. -/
theorem update_floor_velocity (g : Game)
    (hfloor : g.baby.y + g.baby.velocity + g.GRAVITY + jsOr (g.baby.h / 2) 15 ≥
      g.canvasHeight - 20) :
    (baby.update g).baby.velocity = 0 := by
  have hf : g.baby.y + (g.baby.velocity + g.GRAVITY) + jsOr (g.baby.h / 2) 15 ≥
      g.canvasHeight - 20 := by linarith
  unfold baby.update
  simp only []
  rw [if_pos hf]
  split_ifs <;> simp

/-- After every update the box top has not crossed the ceiling line `0`. -/
theorem update_top_in_bounds (g : Game) :
    (baby.update g).baby.y - jsOr (g.baby.h / 2) 15 ≥ 0 := by
  unfold baby.update
  simp only []
  split_ifs <;> simp at * <;> linarith

/-- For a box that fits, a floor hit leaves the box bottom on the floor line. -/
theorem update_floor_bottom (g : Game)
    (hfit : 2 * jsOr (g.baby.h / 2) 15 ≤ g.canvasHeight - 20)
    (hfloor : g.baby.y + g.baby.velocity + g.GRAVITY + jsOr (g.baby.h / 2) 15 ≥
      g.canvasHeight - 20) :
    (baby.update g).baby.y + jsOr (g.baby.h / 2) 15 = g.canvasHeight - 20 := by
  have hf : g.baby.y + (g.baby.velocity + g.GRAVITY) + jsOr (g.baby.h / 2) 15 ≥
      g.canvasHeight - 20 := by linarith
  unfold baby.update
  simp only []
  rw [if_pos hf]
  split_ifs <;> simp at * <;> linarith

/-- For a box that fits, the box bottom has not crossed the floor line after any
update. -/
theorem update_bottom_in_bounds (g : Game)
    (hfit : 2 * jsOr (g.baby.h / 2) 15 ≤ g.canvasHeight - 20) :
    (baby.update g).baby.y + jsOr (g.baby.h / 2) 15 ≤ g.canvasHeight - 20 := by
  unfold baby.update
  simp only []
  split_ifs <;> simp at * <;> linarith

/-- For a box that does not fit, every update ends in the ceiling clamp. -/
theorem update_of_not_fit (g : Game)
    (hfit : ¬ (2 * jsOr (g.baby.h / 2) 15 ≤ g.canvasHeight - 20)) :
    (baby.update g).baby.y = jsOr (g.baby.h / 2) 15 := by
  unfold baby.update
  simp only []
  split_ifs <;> simp at * <;> linarith

/-- C4, as the script behaves, with `halfH = baby.h / 2`, or 15 when that is 0, and
`H = canvas.height`.  For every state: if after integration the box bottom reaches the
floor line (`y + velocity + GRAVITY + halfH >= H - 20`), `baby.update` returns with
velocity 0, and with the box bottom exactly on the floor line if and only if the box
fits between ceiling and floor line (`2 * halfH <= H - 20`).  After every update
`baby.y - halfH >= 0`; `baby.y + halfH <= H - 20` holds if and only if the box fits; and
when the box does not fit, the ceiling clamp, which runs after the floor clamp, leaves
the body at `y == halfH`. -/
theorem update_clamps_to_bounds (g : Game) :
    (g.baby.y + g.baby.velocity + g.GRAVITY + jsOr (g.baby.h / 2) 15 ≥ g.canvasHeight - 20 →
      (baby.update g).baby.velocity = 0 ∧
      ((baby.update g).baby.y + jsOr (g.baby.h / 2) 15 = g.canvasHeight - 20 ↔
        2 * jsOr (g.baby.h / 2) 15 ≤ g.canvasHeight - 20)) ∧
    (baby.update g).baby.y - jsOr (g.baby.h / 2) 15 ≥ 0 ∧
    ((baby.update g).baby.y + jsOr (g.baby.h / 2) 15 ≤ g.canvasHeight - 20 ↔
      2 * jsOr (g.baby.h / 2) 15 ≤ g.canvasHeight - 20) ∧
    (¬ (2 * jsOr (g.baby.h / 2) 15 ≤ g.canvasHeight - 20) →
      (baby.update g).baby.y = jsOr (g.baby.h / 2) 15) := by
  refine ⟨?_, update_top_in_bounds g, ?_, update_of_not_fit g⟩
  · intro hfloor
    refine ⟨update_floor_velocity g hfloor, ?_, fun hfit => update_floor_bottom g hfit hfloor⟩
    intro hb
    by_contra hfit
    rw [update_of_not_fit g hfit] at hb
    exact hfit (by linarith)
  · refine ⟨?_, update_bottom_in_bounds g⟩
    intro hb
    by_contra hfit
    rw [update_of_not_fit g hfit] at hb
    exact hfit (by linarith)

/-- C4 at work.  On `floorGame` the integrated box bottom `880.2` is past the floor line
`880` and the box fits: the update puts the bottom on the line with velocity 0.  On
`tinyGame` the box does not fit and the update leaves the body at `y == halfH`. -/
theorem update_clamps_to_bounds_witness :
    ((baby.update floorGame).baby.velocity = 0 ∧
      (baby.update floorGame).baby.y + jsOr (floorGame.baby.h / 2) 15 =
        floorGame.canvasHeight - 20) ∧
    (baby.update tinyGame).baby.y = jsOr (tinyGame.baby.h / 2) 15 :=
  ⟨⟨((update_clamps_to_bounds floorGame).1
        (by norm_num [floorGame, sampleGame, sampleBaby, jsOr])).1,
      ((update_clamps_to_bounds floorGame).1
        (by norm_num [floorGame, sampleGame, sampleBaby, jsOr])).2.mpr
        (by norm_num [floorGame, sampleGame, sampleBaby, jsOr])⟩,
    (update_clamps_to_bounds tinyGame).2.2.2
      (by norm_num [tinyGame, sampleGame, sampleBaby, jsOr])⟩

/-- C4 as claimed fails in a 40 pixel high window: the floor line is at `20`, the
fallback half height is `15`, the floor test succeeds, and after the update the box
bottom is at `30`, below the floor line, because the ceiling clamp runs after the floor
clamp and moves the body to `y = 15`. -/
theorem update_clamp_counterexample :
    tinyGame.baby.y + tinyGame.baby.velocity + tinyGame.GRAVITY +
        jsOr (tinyGame.baby.h / 2) 15 ≥ tinyGame.canvasHeight - 20 ∧
    tinyGame.canvasHeight - 20 = 20 ∧
    (baby.update tinyGame).baby.y + jsOr (tinyGame.baby.h / 2) 15 = 30 ∧
    ¬ ((baby.update tinyGame).baby.y + jsOr (tinyGame.baby.h / 2) 15 ≤
      tinyGame.canvasHeight - 20) := by
  unfold baby.update
  norm_num [tinyGame, sampleGame, sampleBaby, jsOr, gameOver, baby.draw, noImg]

theorem iterate_update_GRAVITY (g : Game) (n : ℕ) :
    (baby.update^[n] g).GRAVITY = g.GRAVITY := by
  induction n with
  | zero => rfl
  | succ n ih => rw [Function.iterate_succ_apply', baby_update_GRAVITY, ih]

theorem update_velocity_of_not_clamps (g : Game) (h : ¬ baby.clamps g) :
    (baby.update g).baby.velocity = g.baby.velocity + g.GRAVITY ∧
    (baby.update g).baby.y = g.baby.y + (g.baby.velocity + g.GRAVITY) := by
  rw [baby_update_of_not_clamps g h]
  exact ⟨rfl, rfl⟩

/-- C9: over exact rational arithmetic, if none of `n` consecutive calls of `baby.update`
triggers the floor or the ceiling clamp (and nothing else touches the body in between),
each call increases the velocity by exactly `GRAVITY`, and after the `n` calls
`velocity = v0 + n * g` and `y = y0 + n * v0 + g * n * (n + 1) / 2`. -/
theorem gravity_integration (g : Game) (n : ℕ)
    (h : ∀ k, k < n → ¬ baby.clamps (baby.update^[k] g)) :
    (baby.update^[n] g).baby.velocity = g.baby.velocity + n * g.GRAVITY ∧
    (baby.update^[n] g).baby.y =
      g.baby.y + n * g.baby.velocity + g.GRAVITY * n * (n + 1) / 2 ∧
    (∀ k, k < n →
      (baby.update^[k + 1] g).baby.velocity = (baby.update^[k] g).baby.velocity + g.GRAVITY) := by
  induction n with
  | zero =>
    refine ⟨by simp, by simp, ?_⟩
    intro k hk
    exact absurd hk (Nat.not_lt_zero k)
  | succ n ih =>
    have ih1 := ih (fun k hk => h k (Nat.lt_succ_of_lt hk))
    have hstep := update_velocity_of_not_clamps (baby.update^[n] g) (h n (Nat.lt_succ_self n))
    rw [iterate_update_GRAVITY] at hstep
    refine ⟨?_, ?_, ?_⟩
    · rw [Function.iterate_succ_apply', hstep.1, ih1.1]
      push_cast
      ring
    · rw [Function.iterate_succ_apply', hstep.2, ih1.1, ih1.2.1]
      push_cast
      ring
    · intro k hk
      rcases Nat.lt_succ_iff_lt_or_eq.mp hk with hlt | heq
      · exact ih1.2.2 k hlt
      · subst heq
        rw [Function.iterate_succ_apply', hstep.1]

theorem sampleGame_update_one :
    baby.update sampleGame =
      { sampleGame with baby := { sampleBaby with velocity := 2 / 5, y := 450 + 2 / 5 } } := by
  unfold baby.update
  norm_num [sampleGame, sampleBaby, jsOr]

theorem sampleGame_update_two :
    baby.update (baby.update sampleGame) =
      { sampleGame with baby := { sampleBaby with velocity := 4 / 5, y := 450 + 6 / 5 } } := by
  rw [sampleGame_update_one]
  unfold baby.update
  norm_num [sampleGame, sampleBaby, jsOr]

theorem sampleGame_no_clamp (k : ℕ) (hk : k < 3) :
    ¬ baby.clamps (baby.update^[k] sampleGame) := by
  interval_cases k
  · unfold baby.clamps
    norm_num [sampleGame, sampleBaby, jsOr]
  · rw [Function.iterate_one, sampleGame_update_one]
    unfold baby.clamps
    norm_num [sampleGame, sampleBaby, jsOr]
  · rw [Function.iterate_succ_apply', Function.iterate_one, sampleGame_update_two]
    unfold baby.clamps
    norm_num [sampleGame, sampleBaby, jsOr]

/-- C9 at work, Scenario A of the specification: gravity `0.4`, start velocity `0`; after
three updates the velocity is `1.2` and the body has moved down by `2.4`. -/
theorem gravity_integration_witness :
    (baby.update^[3] sampleGame).baby.velocity = 6 / 5 ∧
    (baby.update^[3] sampleGame).baby.y = 450 + 12 / 5 := by
  have h := gravity_integration sampleGame 3 sampleGame_no_clamp
  refine ⟨?_, ?_⟩
  · rw [h.1]; norm_num [sampleGame, sampleBaby]
  · rw [h.2.1]; norm_num [sampleGame, sampleBaby]

/-! ## `resize` and the `Pipe` constructor -/

@[simp] theorem resize_canvasHeight (W H : ℚ) (g : Game) :
    (resize W H g).canvasHeight = H := by
  unfold resize; simp only []; split_ifs <;> simp [drawStartScreen]

@[simp] theorem resize_PIPE_GAP (W H : ℚ) (g : Game) :
    (resize W H g).PIPE_GAP = H * 0.25 := by
  unfold resize; simp only []; split_ifs <;> simp [drawStartScreen]

@[simp] theorem resize_score (W H : ℚ) (g : Game) : (resize W H g).score = g.score := by
  unfold resize; simp only []; split_ifs <;> simp [drawStartScreen]

@[simp] theorem resize_y (W H : ℚ) (g : Game) : (resize W H g).baby.y = g.baby.y := by
  unfold resize; simp only []; split_ifs <;> simp [drawStartScreen]

@[simp] theorem resize_velocity (W H : ℚ) (g : Game) :
    (resize W H g).baby.velocity = g.baby.velocity := by
  unfold resize; simp only []; split_ifs <;> simp [drawStartScreen]

/-- C8, for viewports that fit the margins (`maxPipe - minPipe + 1 >= 0`, that is
`0.55 * H >= 49`): after `resize` to height `H`, for every random draw `r` in `[0, 1)`
the gap top of a new pipe satisfies
`minPipe <= topHeight <= H - PIPE_GAP - minPipe - 20`, indeed
`topHeight <= maxPipe + 1` with `maxPipe = H - PIPE_GAP - minPipe - 50`, and
`bottomY = topHeight + PIPE_GAP` with `PIPE_GAP = 0.25 * H`. -/
theorem pipe_gap_top_in_range (g : Game) (W H r : ℚ) (hr0 : 0 ≤ r) (hr1 : r < 1)
    (hH : 49 ≤ 0.55 * H) :
    H * 0.1 ≤ (Pipe.new (resize W H g) r).topHeight ∧
    (Pipe.new (resize W H g) r).topHeight ≤ H - (resize W H g).PIPE_GAP - H * 0.1 - 20 ∧
    (Pipe.new (resize W H g) r).topHeight ≤ (H - (resize W H g).PIPE_GAP - H * 0.1 - 50) + 1 ∧
    (Pipe.new (resize W H g) r).bottomY =
      (Pipe.new (resize W H g) r).topHeight + (resize W H g).PIPE_GAP ∧
    (resize W H g).PIPE_GAP = 0.25 * H := by
  unfold Pipe.new
  simp only [resize_canvasHeight, resize_PIPE_GAP]
  have hK : 0 ≤ H - H * 0.25 - H * 0.1 - 50 - H * 0.1 + 1 := by
    norm_num at hH ⊢; linarith
  have hfl0 : (0 : ℚ) ≤ (Int.floor (r * (H - H * 0.25 - H * 0.1 - 50 - H * 0.1 + 1)) : ℚ) := by
    exact_mod_cast Int.floor_nonneg.mpr (mul_nonneg hr0 hK)
  have hfl1 : (Int.floor (r * (H - H * 0.25 - H * 0.1 - 50 - H * 0.1 + 1)) : ℚ) ≤
      r * (H - H * 0.25 - H * 0.1 - 50 - H * 0.1 + 1) := Int.floor_le _
  have hrK : r * (H - H * 0.25 - H * 0.1 - 50 - H * 0.1 + 1) ≤
      H - H * 0.25 - H * 0.1 - 50 - H * 0.1 + 1 := by
    nlinarith
  exact ⟨by linarith, by linarith, by linarith, trivial, by ring⟩

/-- C8 at work in a 400 x 900 window with the draw `r = 1/2`. -/
theorem pipe_gap_top_in_range_witness :
    (900 : ℚ) * 0.1 ≤ (Pipe.new (resize 400 900 sampleGame) (1 / 2)).topHeight ∧
    (Pipe.new (resize 400 900 sampleGame) (1 / 2)).topHeight ≤
      900 - (resize 400 900 sampleGame).PIPE_GAP - 900 * 0.1 - 20 :=
  ⟨(pipe_gap_top_in_range sampleGame 400 900 (1 / 2) (by norm_num) (by norm_num)
      (by norm_num)).1,
    (pipe_gap_top_in_range sampleGame 400 900 (1 / 2) (by norm_num) (by norm_num)
      (by norm_num)).2.1⟩

/-- C8 as claimed fails in a 50 pixel high window with the draw `r = 1/2`: there
`minPipe = 5`, `maxPipe = -17.5`, the script computes
`floor(0.5 * (-21.5)) + 5 = -11 + 5 = -6`, and the gap top `-6` is below `minPipe`;
nothing in the constructor clamps the range. -/
theorem pipe_gap_top_counterexample :
    (0 : ℚ) < 50 ∧ (0 : ℚ) ≤ 1 / 2 ∧ (1 / 2 : ℚ) < 1 ∧
    (resize 400 50 sampleGame).canvasHeight * 0.1 = 5 ∧
    (Pipe.new (resize 400 50 sampleGame) (1 / 2)).topHeight = -6 ∧
    ¬ ((resize 400 50 sampleGame).canvasHeight * 0.1 ≤
      (Pipe.new (resize 400 50 sampleGame) (1 / 2)).topHeight) := by
  have hfl : Int.floor ((1 / 2 : ℚ) * (50 - 50 * 0.25 - 50 * 0.1 - 50 - 50 * 0.1 + 1)) = -11 := by
    rw [Int.floor_eq_iff]; norm_num
  have htop : (Pipe.new (resize 400 50 sampleGame) (1 / 2)).topHeight = -6 := by
    unfold Pipe.new
    simp only [resize_canvasHeight, resize_PIPE_GAP, hfl]
    norm_num
  rw [htop, resize_canvasHeight]
  norm_num

/-! ## The crashed state -/

theorem loop_of_not_running (r : ℚ) (g : Game) (h : g.gameRunning = false) : loop r g = g := by
  unfold loop
  simp [h]

theorem foldl_loop_of_not_running (rs : List ℚ) :
    ∀ g : Game, g.gameRunning = false → rs.foldl (fun s r => loop r s) g = g := by
  induction rs with
  | nil => intro g _; rfl
  | cons r rs ih =>
    intro g h
    rw [List.foldl_cons, loop_of_not_running r g h]
    exact ih g h

/-- C5, across ticks: once `gameRunning` is false (as `gameOver` leaves it), every later
invocation of `loop`, and any number of them, returns the state unchanged, so `score`,
`baby.y` and `baby.velocity` stay as they are until a start input; a `resize` in between
does not change them either. -/
theorem crashed_is_terminal_across_ticks (g : Game) (h : g.gameRunning = false) :
    (∀ r : ℚ, loop r g = g) ∧
    (∀ rs : List ℚ, rs.foldl (fun s r => loop r s) g = g) ∧
    (∀ (s : Game) (r : ℚ), loop r (gameOver s) = gameOver s) ∧
    (∀ W H : ℚ, (resize W H g).score = g.score ∧ (resize W H g).baby.y = g.baby.y ∧
      (resize W H g).baby.velocity = g.baby.velocity ∧
      (resize W H g).gameRunning = false) := by
  refine ⟨fun r => loop_of_not_running r g h, fun rs => foldl_loop_of_not_running rs g h,
    fun s r => loop_of_not_running r _ (gameOver_gameRunning s), ?_⟩
  intro W H
  refine ⟨resize_score W H g, resize_y W H g, resize_velocity W H g, ?_⟩
  unfold resize
  simp only []
  split_ifs <;> simp [drawStartScreen, h]

/-- C5 at work: three further frames and a resize after the crash change nothing. -/
theorem crashed_is_terminal_across_ticks_witness :
    [(0 : ℚ), 1 / 2, 1 / 3].foldl (fun s r => loop r s) crashedGame = crashedGame ∧
    (resize 300 600 crashedGame).score = crashedGame.score :=
  ⟨(crashed_is_terminal_across_ticks crashedGame rfl).2.1 [0, 1 / 2, 1 / 3],
    ((crashed_is_terminal_across_ticks crashedGame rfl).2.2.2 300 600).1⟩

theorem pipesLoop_crashTick :
    (pipesLoop crashTick).gameRunning = false ∧ (pipesLoop crashTick).baby.crashed = true ∧
    (pipesLoop crashTick).gameOverCalls = 1 ∧ (pipesLoop crashTick).baby.y = 450 ∧
    (pipesLoop crashTick).baby.velocity = 0 := by
  rw [pipesLoop_eq]
  norm_num [crashTick, updateAll, Pipe.update, Game.setPipes, sampleGame, sampleBaby, hitPipe,
    jsOr, gameOver, baby.draw, noImg]

theorem loop_crashTick :
    (loop 0 crashTick).baby.y = 450 + 2 / 5 ∧ (loop 0 crashTick).baby.velocity = 2 / 5 := by
  unfold loop
  norm_num [pipesLoop_eq, crashTick, updateAll, Pipe.update, Game.setPipes, sampleGame,
    sampleBaby, hitPipe, jsOr, gameOver, baby.draw, baby.update, noImg, SPAWN_RATE]

/-- C5 as claimed fails within the tick of the crash: in `crashTick` the pipe pass calls
`gameOver` (session stopped, body crashed, `y = 450`, velocity `0`), and the
`baby.update` that follows in the same invocation of `loop` still integrates gravity:
the tick ends with `y = 450.4` and velocity `0.4`. -/
theorem crash_tick_counterexample :
    crashTick.gameRunning = true ∧
    ((pipesLoop crashTick).gameRunning = false ∧ (pipesLoop crashTick).baby.crashed = true ∧
      (pipesLoop crashTick).gameOverCalls = 1 ∧ (pipesLoop crashTick).baby.y = 450 ∧
      (pipesLoop crashTick).baby.velocity = 0) ∧
    ((loop 0 crashTick).baby.y = 450 + 2 / 5 ∧ (loop 0 crashTick).baby.velocity = 2 / 5) ∧
    (loop 0 crashTick).baby.y ≠ (pipesLoop crashTick).baby.y ∧
    (loop 0 crashTick).baby.velocity ≠ (pipesLoop crashTick).baby.velocity := by
  refine ⟨rfl, pipesLoop_crashTick, loop_crashTick, ?_, ?_⟩
  · rw [loop_crashTick.1, pipesLoop_crashTick.2.2.2.1]; norm_num
  · rw [loop_crashTick.2, pipesLoop_crashTick.2.2.2.2]; norm_num

/-! ## Start input -/

theorem includes_start_message : includes "Tap or Press Space to Start" "Game Over" = false := by
  unfold includes
  decide

theorem includes_gameOver_message : includes "Game Over!\nTap to Restart" "Game Over" = true := by
  unfold includes
  decide

theorem Pipe_update_not_crashed (g : Game) (p : Pipe)
    (h : (Pipe.update g p).1.baby.crashed = false) :
    g.baby.crashed = false ∧ (Pipe.update g p).1.gameRunning = g.gameRunning := by
  unfold Pipe.update at h ⊢
  simp only [] at h ⊢
  split_ifs at h ⊢ <;> simp_all

theorem updateAll_not_crashed (ps : List Pipe) :
    ∀ g : Game, (updateAll g ps).1.baby.crashed = false →
      g.baby.crashed = false ∧ (updateAll g ps).1.gameRunning = g.gameRunning := by
  induction ps with
  | nil => intro g h; exact ⟨h, rfl⟩
  | cons p ps ih =>
    intro g h
    simp only [updateAll] at h ⊢
    have h1 := ih _ h
    have h2 := Pipe_update_not_crashed g p h1.1
    exact ⟨h2.1, h1.2.trans h2.2⟩

theorem baby_update_not_crashed (g : Game) (h : (baby.update g).baby.crashed = false) :
    g.baby.crashed = false ∧ (baby.update g).gameRunning = g.gameRunning := by
  unfold baby.update at h ⊢
  simp only [] at h ⊢
  split_ifs at h ⊢ <;> simp_all

theorem updateAll_single_score (g : Game) (p : Pipe) :
    (updateAll g [p]).1.score ≤ g.score + 1 := by
  simp only [updateAll]
  rw [Pipe_update_score]
  split_ifs <;> omega

/-- The first tick of a fresh session followed by the flap of the start input. -/
theorem fresh_first_tick (r : ℚ) (s0 : Game) (h : freshSession s0) :
    (baby.flap (loop r s0)).frames = 1 ∧ (baby.flap (loop r s0)).score ≤ 1 ∧
    (baby.flap (loop r s0)).pipes.length ≤ 1 ∧
    ((baby.flap (loop r s0)).baby.crashed = false →
      (baby.flap (loop r s0)).gameRunning = true ∧
      (baby.flap (loop r s0)).baby.velocity = (baby.flap (loop r s0)).FLAP_STRENGTH) := by
  obtain ⟨hrun, hfr, hsc, hpi, -, -, -⟩ := h
  have hloop : loop r s0 =
      { baby.draw (baby.update (pipesLoop (s0.setPipes [Pipe.new s0 r]))) with
        frames := (baby.draw (baby.update (pipesLoop (s0.setPipes [Pipe.new s0 r])))).frames
          + 1 } := by
    unfold loop
    simp [hrun, hfr, hpi, SPAWN_RATE]
  have hflap : ∀ g : Game, (baby.flap g).frames = g.frames ∧ (baby.flap g).score = g.score ∧
      (baby.flap g).pipes = g.pipes ∧ (baby.flap g).baby.crashed = g.baby.crashed ∧
      (baby.flap g).gameRunning = g.gameRunning ∧
      (baby.flap g).FLAP_STRENGTH = g.FLAP_STRENGTH ∧
      (g.baby.crashed = false → (baby.flap g).baby.velocity = g.FLAP_STRENGTH) := by
    intro g
    unfold baby.flap
    cases hc : g.baby.crashed <;> simp [hc]
  obtain ⟨f1, f2, f3, f4, f5, f6, f7⟩ := hflap (loop r s0)
  rw [f1, f2, f3, f4, f5, f6]
  refine ⟨?_, ?_, ?_, ?_⟩
  · rw [hloop]
    simp [pipesLoop_eq, hfr]
  · rw [hloop]
    simp only [baby_draw_score, baby_update_score, pipesLoop_eq, setPipes_score, setPipes_pipes]
    have := updateAll_single_score (s0.setPipes [Pipe.new s0 r]) (Pipe.new s0 r)
    simp only [setPipes_score, hsc] at this
    omega
  · rw [hloop]
    simp only [baby_draw_pipes, baby_update_pipes, pipesLoop_eq, setPipes_pipes]
    refine le_trans (List.length_filter_le _ _) ?_
    simp [updateAll]
  · intro hc
    refine ⟨?_, f7 hc⟩
    rw [hloop] at hc ⊢
    simp only [baby_draw_crashed, baby_draw_gameRunning] at hc ⊢
    have h1 := baby_update_not_crashed _ hc
    rw [h1.2]
    have h2 := h1.1
    rw [pipesLoop_eq] at h2 ⊢
    simp only [setPipes_baby, setPipes_gameRunning, setPipes_pipes] at h2 ⊢
    have h3 := updateAll_not_crashed _ _ h2
    rw [h3.2]
    exact hrun

theorem init_fresh (W H : ℚ) (g0 : Game) :
    (init W H g0).gameRunning = false ∧
    (init W H g0).messageText = "Tap or Press Space to Start" ∧
    (init W H g0).canvasHeight = H ∧
    freshSession { init W H g0 with gameRunning := true, messageShown := false } := by
  unfold freshSession
  simp [init, drawStartScreen, baby.reset]

theorem onInput_of_idle (r : ℚ) (s : Game) (h1 : s.gameRunning = false)
    (h2 : includes s.messageText "Game Over" = false) :
    onInput r s = baby.flap (loop r { s with gameRunning := true, messageShown := false }) := by
  unfold onInput startGame
  simp [h1, h2]

theorem onInput_of_crashed (r : ℚ) (s : Game) (h1 : s.gameRunning = false)
    (h2 : includes s.messageText "Game Over" = true) :
    onInput r s =
      baby.flap (loop r
        { baby.reset { s with pipes := [], score := 0, scoreText := 0 } with
          frames := 0, gameRunning := true, messageShown := false }) := by
  unfold onInput startGame
  simp [h1, h2]

/-- C6, as the script behaves: a start input delivered in the Idle state produced by
`init`, or in a Crashed state (not running, message containing "Game Over"), first
brings the session to the fresh state (running, `frames == 0`, `score == 0`, no pipes,
body at `y == canvas.height / 2` with velocity 0), then `startGame` runs one tick of
`loop` synchronously, and only then the handler flaps.  When the handler returns,
`frames == 1`, at most the one pipe spawned by that tick is in the list, the score is at
most 1, and unless that first tick crashed the session is running with
`velocity == FLAP_STRENGTH`. -/
theorem start_input_runs_first_tick (W H r : ℚ) (g0 s : Game)
    (hs : s = init W H g0 ∨
      (s.gameRunning = false ∧ includes s.messageText "Game Over" = true)) :
    ∃ s0 : Game, freshSession s0 ∧ s0.canvasHeight = s.canvasHeight ∧
      onInput r s = baby.flap (loop r s0) ∧
      (onInput r s).frames = 1 ∧ (onInput r s).score ≤ 1 ∧
      (onInput r s).pipes.length ≤ 1 ∧
      ((onInput r s).baby.crashed = false →
        (onInput r s).gameRunning = true ∧
        (onInput r s).baby.velocity = (onInput r s).FLAP_STRENGTH) := by
  rcases hs with hs | ⟨h1, h2⟩
  · subst hs
    obtain ⟨i1, i2, -, i4⟩ := init_fresh W H g0
    have hidle : includes (init W H g0).messageText "Game Over" = false := by
      rw [i2]; exact includes_start_message
    have he := onInput_of_idle r (init W H g0) i1 hidle
    refine ⟨_, i4, rfl, he, ?_⟩
    rw [he]
    exact fresh_first_tick r _ i4
  · have he := onInput_of_crashed r s h1 h2
    have hf : freshSession
        { baby.reset { s with pipes := [], score := 0, scoreText := 0 } with
          frames := 0, gameRunning := true, messageShown := false } := by
      unfold freshSession
      simp [baby.reset]
    refine ⟨_, hf, rfl, he, ?_⟩
    rw [he]
    exact fresh_first_tick r _ hf

/-- C6 at work: a start input in the Idle state of a 400 x 900 window, and one in the
crashed sample state, both return after the first tick. -/
theorem start_input_runs_first_tick_witness :
    (onInput (1 / 2) (init 400 900 sampleGame)).frames = 1 ∧
    (onInput (1 / 2) crashedGame).frames = 1 :=
  ⟨(start_input_runs_first_tick 400 900 (1 / 2) sampleGame (init 400 900 sampleGame)
      (Or.inl rfl)).elim (fun _ h => h.2.2.2.1),
    (start_input_runs_first_tick 400 900 (1 / 2) sampleGame crashedGame
      (Or.inr ⟨rfl, includes_gameOver_message⟩)).elim (fun _ h => h.2.2.2.1)⟩

theorem init_sample :
    init 400 900 sampleGame =
      { sampleGame with gameRunning := false, frames := 0, messageShown := true } := by
  unfold init resize
  norm_num [drawStartScreen, baby.draw, baby.reset, sampleGame, sampleBaby, noImg,
    originalHeight]

theorem onInput_init_sample :
    onInput (1 / 2) (init 400 900 sampleGame) = baby.flap (loop (1 / 2) freshGame) := by
  rw [init_sample]
  unfold onInput startGame
  simp only [sampleGame, includes_start_message]
  rfl

theorem new_pipe_sample : Pipe.new freshGame (1 / 2) = newPipe := by
  have hfl : Int.floor ((1 / 2 : ℚ) * (900 - 225 - 900 * 0.1 - 50 - 900 * 0.1 + 1)) = 223 := by
    rw [Int.floor_eq_iff]; norm_num
  unfold Pipe.new
  simp only [freshGame, sampleGame, hfl, newPipe]
  norm_num

theorem update_new_pipe_sample :
    Pipe.update freshGame newPipe = (freshGame, { newPipe with x := 396 }) := by
  unfold Pipe.update
  norm_num [freshGame, sampleGame, sampleBaby, newPipe, jsOr]

theorem pipesLoop_fresh_sample :
    pipesLoop (freshGame.setPipes [newPipe]) = freshGame.setPipes [{ newPipe with x := 396 }] := by
  rw [pipesLoop_eq]
  simp only [setPipes_pipes, updateAll, Pipe_update_setPipes, update_new_pipe_sample,
    setPipes_setPipes]
  norm_num [newPipe]

theorem loop_of_spawn (r : ℚ) (g : Game) (h1 : g.gameRunning = true)
    (h2 : g.frames % SPAWN_RATE = 0) :
    loop r g =
      { baby.draw (baby.update (pipesLoop (g.setPipes (g.pipes ++ [Pipe.new g r])))) with
        frames :=
          (baby.draw (baby.update (pipesLoop (g.setPipes (g.pipes ++ [Pipe.new g r]))))).frames
            + 1 } := by
  unfold loop
  simp [h1, h2]

theorem loop_fresh_sample :
    loop (1 / 2) freshGame =
      { freshGame with
        frames := 1
        pipes := [{ newPipe with x := 396 }]
        baby := { sampleBaby with velocity := 2 / 5, y := 450 + 2 / 5 } } := by
  have h1 : freshGame.setPipes (freshGame.pipes ++ [Pipe.new freshGame (1 / 2)]) =
      freshGame.setPipes [newPipe] := by
    rw [new_pipe_sample]; rfl
  rw [loop_of_spawn (1 / 2) freshGame rfl rfl, h1, pipesLoop_fresh_sample]
  unfold baby.update
  norm_num [freshGame, Game.setPipes, sampleGame, sampleBaby, jsOr, baby.draw, noImg]

/-- C6 as claimed fails: after a start input in the Idle state produced by `init` in a
400 x 900 window (draw `r = 1/2`), the handler returns with tick counter 1, one pipe in
the list (already advanced to `x = 396`) and the body at `y = 450.4`, one gravity step
below the launch position `450`, because `startGame` calls `loop` before the handler
flaps. -/
theorem start_input_counterexample :
    (init 400 900 sampleGame).gameRunning = false ∧
    (init 400 900 sampleGame).canvasHeight / 2 = 450 ∧
    (onInput (1 / 2) (init 400 900 sampleGame)).frames = 1 ∧
    (onInput (1 / 2) (init 400 900 sampleGame)).baby.y = 450 + 2 / 5 ∧
    (onInput (1 / 2) (init 400 900 sampleGame)).baby.velocity = -8 ∧
    (onInput (1 / 2) (init 400 900 sampleGame)).pipes = [{ newPipe with x := 396 }] ∧
    ¬ ((onInput (1 / 2) (init 400 900 sampleGame)).frames = 0) ∧
    ¬ ((onInput (1 / 2) (init 400 900 sampleGame)).pipes = []) ∧
    ¬ ((onInput (1 / 2) (init 400 900 sampleGame)).baby.y =
      (init 400 900 sampleGame).canvasHeight / 2) := by
  have hi : (init 400 900 sampleGame).gameRunning = false ∧
      (init 400 900 sampleGame).canvasHeight / 2 = 450 := by
    rw [init_sample]
    norm_num [sampleGame]
  have ht : (onInput (1 / 2) (init 400 900 sampleGame)).frames = 1 ∧
      (onInput (1 / 2) (init 400 900 sampleGame)).baby.y = 450 + 2 / 5 ∧
      (onInput (1 / 2) (init 400 900 sampleGame)).baby.velocity = -8 ∧
      (onInput (1 / 2) (init 400 900 sampleGame)).pipes = [{ newPipe with x := 396 }] := by
    rw [onInput_init_sample, loop_fresh_sample]
    unfold baby.flap
    norm_num [freshGame, sampleGame, sampleBaby]
  refine ⟨hi.1, hi.2, ht.1, ht.2.1, ht.2.2.1, ht.2.2.2, ?_, ?_, ?_⟩
  · rw [ht.1]; decide
  · rw [ht.2.2.2]; exact List.cons_ne_nil _ _
  · rw [ht.2.1, hi.2]; norm_num

end FlappyBaby
